import Mathlib

/-!
# Shallow embedding of the KiwiSDR recorder backend job engine

This file embeds the job lifecycle and scheduling core of
`src/backend/src/job.rs` in Lean 4 and proves properties of it.

Conventions of the embedding:
* Rust `u32`/`u64`/`u8`/`u16` values are `Nat`s; where the source saturates
  or the width matters the bound `2^32 - 1` appears explicitly.
* Rust `String` values that are only built and compared are Lean `String`s;
  the log line payload is a `List Char` because `Log::get_truncated` slices
  it at a UTF-8 *byte* offset, which needs byte-level granularity.
* The ambient clock (`Utc::now()`) is threaded as an explicit `now`
  parameter; the formatted UTC timestamp used in filenames is likewise an
  explicit `String` parameter.
* Fallible Rust paths (`io::Result`, panics, `expect`) become
  `Except`/`Option`.
-/

namespace KiwiSdr

/-! ## Log entries (`struct Log`) -/

/-- Rust `struct Log { timestamp: u64, data: String }`; the payload is kept as a
list of unicode scalar values so UTF-8 byte offsets can be modelled. -/
structure Log where
  timestamp : Nat
  data : List Char
deriving DecidableEq, Repr

/-- UTF-8 byte length of a string, `String::len` in Rust. -/
def strByteLen (s : List Char) : Nat :=
  (s.map Char.utf8Size).sum

/-- Rust byte slicing `&s[..n]`: returns the prefix occupying exactly the
first `n` bytes when `n` falls on a character boundary, and `none` (a Rust
panic) when `n` lands inside a multi-byte character or past the end. -/
def takeBytes : List Char → Nat → Option (List Char)
  | _, 0 => some []
  | [], _ + 1 => none
  | c :: cs, n + 1 =>
    if c.utf8Size ≤ n + 1 then
      (takeBytes cs (n + 1 - c.utf8Size)).map (fun p => c :: p)
    else
      none

/-- Constant `MAX_LOG_LENGTH` in `Log::get_truncated`. -/
def MAX_LOG_LENGTH : Nat := 200

/-- Embeds `Log::get_truncated`: if the payload exceeds 200 bytes, keep the first
200 bytes and append `"..."`. The byte slice `&self.data[..200]` panics
(`none`) when byte 200 is not a character boundary. -/
def Log.get_truncated (l : Log) : Option Log :=
  if strByteLen l.data > MAX_LOG_LENGTH then
    (takeBytes l.data MAX_LOG_LENGTH).map
      (fun p => { timestamp := l.timestamp, data := p ++ "...".toList })
  else
    some { timestamp := l.timestamp, data := l.data }

/-! ## Bounded log buffer (`struct Logs`) -/

/-- Rust `struct Logs { logs: VecDeque<Log> }`; the list head is the deque front
(oldest entry), the list end is the deque back (newest entry). -/
structure Logs where
  logs : List Log
deriving DecidableEq, Repr

/-- Constant `LOG_COUNT` in `Logs::get_truncated`. -/
def LOG_COUNT : Nat := 20

/-- Embeds `Logs::get_truncated`: iterate from the newest entry, keep at most 20,
truncating each. `none` models a panic inside `Log::get_truncated`. The
receiver is taken by shared reference in the source, so the buffer itself
is not modified. -/
def Logs.get_truncated (ls : Logs) : Option Logs :=
  ((ls.logs.reverse.take LOG_COUNT).mapM Log.get_truncated).map Logs.mk

/-- Constant `MAX_LOG_COUNT` in `Logs::push`. -/
def MAX_LOG_COUNT : Nat := 999

/-- Embeds `Logs::push`: `push_back`, then if the length exceeds 999, `pop_front`
the oldest entry. -/
def Logs.push (ls : Logs) (d : Log) : Logs :=
  let pushed := ls.logs ++ [d]
  if pushed.length > MAX_LOG_COUNT then
    { logs := pushed.tail }
  else
    { logs := pushed }

/-- Fold `Logs::push` over a sequence of entries (oldest first). -/
def Logs.pushAll (ls : Logs) (es : List Log) : Logs :=
  es.foldl Logs.push ls

/-! ## Recorder settings (`struct RecorderSettings`) -/

/-- Rust `enum RecordingType { PNG, IQ }`. -/
inductive RecordingType where
  | PNG
  | IQ
deriving DecidableEq, Repr

/-- Embeds `Display for RecordingType`. -/
def RecordingType.display : RecordingType → String
  | .PNG => "Png"
  | .IQ => "Iq"

/-- Rust `enum RecorderSettingsError`. -/
inductive RecorderSettingsError where
  | ZoomTooHigh
  | FrequencyAboveMax
  | FrequencyBelowMin
deriving DecidableEq, Repr

/-- Rust `struct RecorderSettings`: `frequency` is a `u32` (Hz), `zoom` a `u8`,
`duration` a `u16` (`0` = unbounded), `interval` an `Option<u32>`
(`None` = run once). -/
structure RecorderSettings where
  rec_type : RecordingType
  frequency : Nat
  zoom : Nat
  duration : Nat
  interval : Option Nat
deriving DecidableEq, Repr

/-- Constant `u32::MAX`. -/
def U32_MAX : Nat := 4294967295

/-- Constant `MIN_FREQ` in `RecorderSettings::validate`. -/
def MIN_FREQ : Nat := 0

/-- Constant `MAX_FREQ` in `RecorderSettings::validate`. -/
def MAX_FREQ : Nat := 30000000

/-- The bandwidth computed in `validate`:
`(MAX_FREQ - MIN_FREQ) / (1 << zoom)`. -/
def bandwidthOf (zoom : Nat) : Nat :=
  (MAX_FREQ - MIN_FREQ) / (2 ^ zoom)

/-- Embeds `RecorderSettings::validate`. `saturating_add` on `u32` is modelled as
`min _ U32_MAX`; the `i64` `saturating_sub` never saturates because both
operands are below `2^32`, so it is plain integer subtraction. -/
def RecorderSettings.validate (s : RecorderSettings) :
    Except RecorderSettingsError Unit :=
  if s.zoom > 31 then
    .error .ZoomTooHigh
  else
    let bandwidth := bandwidthOf s.zoom
    let selection_freq_max := min (s.frequency + bandwidth / 2) U32_MAX
    let selection_freq_min : Int := (s.frequency : Int) - (bandwidth : Int) / 2
    if selection_freq_max > MAX_FREQ then
      .error .FrequencyAboveMax
    else if selection_freq_min < (MIN_FREQ : Int) then
      .error .FrequencyBelowMin
    else
      .ok ()

/-- Embeds `Display for RecorderSettings`, used for the settings summary log line
in `mark_running`. -/
def RecorderSettings.display (s : RecorderSettings) : String :=
  "Type: " ++ s.rec_type.display
    ++ ", Frequency: " ++ toString s.frequency ++ " Hz, "
    ++ (match s.rec_type with
        | .PNG => "Zoom: " ++ toString s.zoom ++ ", "
        | .IQ => "")
    ++ (match s.interval with
        | some i => "Every " ++ toString i ++ " sec"
        | none => "Once")
    ++ ", for " ++ toString s.duration ++ " sec"

/-- Embeds `RecorderSettings::get_filename`. The source interpolates
`Utc::now().format("%Y-%m-%d_%H-%M-%S_UTC")` — here the formatted
timestamp is the explicit parameter `utcNow` — and `to_scientific`, an
IEEE-754 `f64` computation, which is the explicit function parameter
`toSci`. -/
def RecorderSettings.get_filename (toSci : Nat → String)
    (s : RecorderSettings) (uid : String) (utcNow : String) : String :=
  let filename_common := uid ++ "_" ++ utcNow ++ "_Fq" ++ toSci s.frequency
  match s.rec_type with
  | .IQ => filename_common ++ "_Bw1d2e4"
  | .PNG => filename_common ++ "_Zm" ++ toString s.zoom

/-- Embeds `RecorderSettings::as_args`. `fmtFreq` stands for the `f64` formatting
`format!("--freq={:#.3}", frequency as f64 / 1000.0)` (minus the literal
`--freq=` part), `toSci` for `to_scientific`, `utcNow` for the formatted
`Utc::now()` timestamp read inside `get_filename`. -/
def RecorderSettings.as_args (fmtFreq toSci : Nat → String)
    (s : RecorderSettings) (uid : String) (utcNow : String) : List String :=
  let args : List String :=
    ["-s", "127.0.0.1",
     "-p", "8073",
     "--freq=" ++ fmtFreq s.frequency,
     "-d", "/var/recorder/recorded-files/",
     "--filename=KiwiRec",
     "--station=" ++ RecorderSettings.get_filename toSci s uid utcNow]
  let args := args ++
    (match s.rec_type with
     | .PNG => ["--wf", "--wf-png", "--speed=4", "--modulation=am",
                "--zoom=" ++ toString s.zoom]
     | .IQ => ["--kiwi-wav", "--modulation=iq"])
  if s.duration ≠ 0 then
    args ++ ["--time-limit=" ++ toString s.duration]
  else
    args

/-- The fixed arguments of `as_args` preceding the `--station` argument. -/
def argsHead (fmtFreq : Nat → String) (s : RecorderSettings) : List String :=
  ["-s", "127.0.0.1",
   "-p", "8073",
   "--freq=" ++ fmtFreq s.frequency,
   "-d", "/var/recorder/recorded-files/",
   "--filename=KiwiRec"]

/-- The arguments of `as_args` following the `--station` argument. -/
def argsTail (s : RecorderSettings) : List String :=
  (match s.rec_type with
   | .PNG => ["--wf", "--wf-png", "--speed=4", "--modulation=am",
              "--zoom=" ++ toString s.zoom]
   | .IQ => ["--kiwi-wav", "--modulation=iq"]) ++
  (if s.duration ≠ 0 then ["--time-limit=" ++ toString s.duration] else [])

/-! ## Job state machine (`struct Job`) -/

/-- An attached OS process handle (`tokio::process::Child`); only its
identity matters to the state machine. -/
structure Child where
  pid : Nat
deriving DecidableEq, Repr

/-- Rust `enum JobStatus`. -/
inductive JobStatus where
  | Idle
  | Starting
  | Running
  | Stopping
deriving DecidableEq, Repr

/-- Rust `struct Job`. -/
structure Job where
  job_id : Nat
  job_uid : String
  status : JobStatus
  process : Option Child
  started_at : Option Nat
  next_run_start : Option Nat
  logs : Logs
  settings : RecorderSettings
deriving DecidableEq, Repr

/-- Embeds `Job::new`; the randomly generated uid is an explicit parameter. -/
def Job.new (job_id : Nat) (uid : String) (settings : RecorderSettings) :
    Job :=
  { job_id := job_id
    job_uid := uid
    status := .Idle
    process := none
    started_at := none
    next_run_start := none
    logs := { logs := [] }
    settings := settings }

/-- Embeds `Job::is_waiting_to_start`; `Utc::now()` is the parameter `now` and
`unwrap_or(0)` is `Option.getD _ 0`. -/
def Job.is_waiting_to_start (j : Job) (now : Nat) : Bool :=
  decide (j.status = JobStatus.Idle)
    && decide (j.next_run_start.getD 0 ≤ now)
    && j.process.isNone

/-- Embeds `Job::push_log`. -/
def Job.push_log (j : Job) (now : Nat) (data : List Char) : Job :=
  { j with logs := j.logs.push { timestamp := now, data := data } }

/-- Embeds `Job::mark_starting`. (Its `debug_assert!(self.process.is_none())` is a
debug-build check, not part of the release behaviour.) -/
def Job.mark_starting (j : Job) : Except String Job :=
  if j.status ≠ JobStatus.Idle then
    .error "Job not idle"
  else
    .ok { j with status := .Starting }

/-- Embeds `Job::mark_running`. -/
def Job.mark_running (j : Job) (process : Child) (now : Nat) : Job :=
  let j' := { j with
    status := JobStatus.Running
    process := some process
    started_at := some now
    next_run_start :=
      match j.settings.interval with
      | some 0 => none
      | none => none
      | some interval => some (now + interval) }
  (j'.push_log now "<Started>".toList).push_log now
    ("<Settings>  " ++ j.settings.display).toList

/-- The `debug_assert` guarding `Job::mark_running`:
`self.status == JobStatus::Starting`. -/
def markRunningAssert (j : Job) : Prop :=
  j.status = JobStatus.Starting

/-- Embeds `Job::mark_stopping`. -/
def Job.mark_stopping (j : Job) : Except String Job :=
  if j.status ≠ JobStatus.Running then
    .error "Job is not running"
  else
    .ok { j with status := .Stopping }

/-- Embeds `Job::mark_exited` (release behaviour: the body always runs). -/
def Job.mark_exited (j : Job) (now : Nat) : Job :=
  ({ j with status := JobStatus.Idle, process := none }).push_log now
    "<Exited>".toList

/-- The `debug_assert` guarding `Job::mark_exited`:
`self.status == Running || self.status == Stopping`. -/
def markExitedAssert (j : Job) : Prop :=
  j.status = JobStatus.Running ∨ j.status = JobStatus.Stopping

/-- Embeds `Job::mark_stopped_manually` (release behaviour: the body always
runs). -/
def Job.mark_stopped_manually (j : Job) (now : Nat) : Job :=
  ({ j with status := JobStatus.Idle, process := none }).push_log now
    "<Stopped Manually>".toList

/-- The `debug_assert` guarding `Job::mark_stopped_manually`:
`self.status == JobStatus::Stopping`. -/
def markStoppedManuallyAssert (j : Job) : Prop :=
  j.status = JobStatus.Stopping

/-- Embeds `Job::start` as a state transformer on the shared job. `spawned` is the
outcome of `Command::spawn()` (`none` = spawn error, propagated by `?`).
The returned pair is (the `io::Result` given to the caller, the state the
shared job is left in). On a spawn error the early `?` return leaves the
job exactly as `mark_starting` left it. -/
def Job.start (j : Job) (spawned : Option Child) (now : Nat) :
    Except String Unit × Job :=
  match j.mark_starting with
  | .error e => (.error e, j)
  | .ok j1 =>
    match spawned with
    | none => (.error "spawn failed", j1)
    | some child => (.ok (), j1.mark_running child now)

/-- Embeds `Job::stop` as a state transformer on the shared job. Between taking
the child (first critical section) and the final lock acquisition, the
kill/wait runs unlocked; `readerObservedExit` says whether the
exit-responsible stdout reader routine observed end-of-stream after the
kill and ran `mark_exited` before `stop` reacquired the lock. The source
then calls `mark_stopped_manually` unconditionally. -/
def Job.stop (j : Job) (readerObservedExit : Bool) (now : Nat) :
    Except String Unit × Job :=
  match j.mark_stopping with
  | .error e => (.error e, j)
  | .ok j1 =>
    let j2 := { j1 with process := none }
    let j3 := if readerObservedExit then j2.mark_exited now else j2
    (.ok (), j3.mark_stopped_manually now)

/-! ## Id allocation (`get_next_free_id`) -/

/-- The scan underlying `get_next_free_id`: try `fuel` consecutive
candidate ids starting at `start`, returning the first one not in
`keys`. -/
def findFreeFrom (keys : Finset Nat) : Nat → Nat → Option Nat
  | _, 0 => none
  | start, fuel + 1 =>
    if start ∈ keys then findFreeFrom keys (start + 1) fuel else some start

/-- Embeds `get_next_free_id`: `(u32::MIN..u32::MAX).find(|&id| !map.contains_key(&id))`.
The Rust range is half-open, so the candidates are `0` to `u32::MAX - 1`
(`U32_MAX` of them); `none` models the
`.expect("Job ID space exhausted")` panic. The map is abstracted to its
key set, the only thing `contains_key` reads. -/
def get_next_free_id (keys : Finset Nat) : Option Nat :=
  findFreeFrom keys 0 U32_MAX

/-! ## Concrete instances used by the theorems below -/

/-- A valid settings value: PNG capture at 15 MHz, zoom 0 (the selection
window is exactly `[0, 30 MHz]`). -/
def sC2 : RecorderSettings :=
  { rec_type := .PNG
    frequency := 15000000
    zoom := 0
    duration := 10
    interval := none }

/-- Settings `sC2` made recurring with a 60-second interval. -/
def sInterval : RecorderSettings :=
  { sC2 with interval := some 60 }

/-- An idle recurring job whose next run is scheduled at time 10. -/
def jW : Job :=
  { Job.new 3 "UID3" sInterval with next_run_start := some 10 }

/-- A job whose external process is attached and running. -/
def jC1 : Job :=
  { Job.new 0 "UID0" sC2 with status := .Running, process := some ⟨1⟩ }

/-- The state of `jC1` at the moment `stop` reacquires the lock for its
final transition, in the interleaving where the exit-responsible stdout
reader observed end-of-stream (after the kill) and ran `mark_exited`
first: `mark_stopping` set the status to Stopping, `stop` took the child,
and the reader's `mark_exited` then moved the job to Idle. -/
def jC1_reader : Job :=
  ({ jC1 with status := JobStatus.Stopping, process := none }).mark_exited 7

/-- A log entry whose text is 199 ASCII characters followed by `é`
(a 2-byte UTF-8 character): 201 bytes in total, with byte offset 200
falling in the middle of the final character. -/
def logBad : Log :=
  { timestamp := 0, data := List.replicate 199 'a' ++ ['é'] }

/-- An arbitrary log entry, used to instantiate buffer theorems. -/
def logW : Log :=
  { timestamp := 0, data := "x".toList }

/-- The value of `format!("{:#.3}", frequency as f64 / 1000.0)` at
frequency 0: `0.0 / 1000.0` is exactly `0.0` and formats as `"0.000"`,
with no floating-point rounding involved. Used to instantiate the
`fmtFreq` parameter at a point where the `f64` computation is exact. -/
def fmtFreq0 : Nat → String := fun _ => "0.000"

/-- The value of `to_scientific` at frequency 0: the source returns
`"0e0"` from its integer early-return branch, with no floating-point
computation. Used to instantiate the `toSci` parameter at a point where
the `f64` computation is exact. -/
def toSci0 : Nat → String := fun _ => "0e0"

/-- An IQ settings value at frequency 0, where both `f64`-derived strings
of `as_args` are exactly determined. -/
def s9 : RecorderSettings :=
  { rec_type := .IQ
    frequency := 0
    zoom := 0
    duration := 0
    interval := none }

deriving instance DecidableEq for Except

/-! ## Theorems -/

set_option maxRecDepth 8000

/-- Unfolding of `validate` with the intermediate `let`s zeta-reduced. -/
lemma validate_unfold (s : RecorderSettings) :
    s.validate =
      if s.zoom > 31 then .error .ZoomTooHigh
      else if min (s.frequency + bandwidthOf s.zoom / 2) U32_MAX > MAX_FREQ then
        .error .FrequencyAboveMax
      else if (s.frequency : Int) - (bandwidthOf s.zoom : Int) / 2 <
          (MIN_FREQ : Int) then
        .error .FrequencyBelowMin
      else .ok () := rfl

/-- C2: `validate` accepts every settings value whose zoom is in `[0, 31]`
and whose derived selection window `[frequency - bandwidth/2,
frequency + bandwidth/2]` (with `bandwidth = 30_000_000 / 2^zoom`) stays
inside `[0, 30_000_000]`; it rejects every zoom above 31 with
`ZoomTooHigh` regardless of frequency; and because the additions saturate
instead of wrapping, every in-range-zoom frequency above 30 MHz (up to
`u32::MAX`) is rejected with `FrequencyAboveMax` rather than wrapping
around to an accepted value. -/
theorem validate_cases (s : RecorderSettings) :
    (s.zoom ≤ 31 →
      s.frequency + bandwidthOf s.zoom / 2 ≤ MAX_FREQ →
      0 ≤ (s.frequency : Int) - (bandwidthOf s.zoom : Int) / 2 →
      s.validate = Except.ok ())
    ∧ (31 < s.zoom →
      s.validate = Except.error RecorderSettingsError.ZoomTooHigh)
    ∧ (s.zoom ≤ 31 → MAX_FREQ < s.frequency → s.frequency ≤ U32_MAX →
      s.validate = Except.error RecorderSettingsError.FrequencyAboveMax) := by
  simp only [validate_unfold, MAX_FREQ, MIN_FREQ, U32_MAX]
  refine ⟨?_, ?_, ?_⟩
  · intro hz hmax hmin
    rw [if_neg (by omega), if_neg (by omega), if_neg (by omega)]
  · intro hz
    rw [if_pos (by omega)]
  · intro hz hlo hhi
    rw [if_neg (by omega), if_pos (by omega)]

/-- Witness for `validate_cases` at concrete inputs: 15 MHz at zoom 0 is
accepted, zoom 32 is rejected as too high, and 40 MHz is rejected as
above the maximum. -/
theorem validate_cases_witness :
    sC2.validate = Except.ok ()
    ∧ RecorderSettings.validate { sC2 with zoom := 32 }
        = Except.error RecorderSettingsError.ZoomTooHigh
    ∧ RecorderSettings.validate { sC2 with frequency := 40000000 }
        = Except.error RecorderSettingsError.FrequencyAboveMax :=
  ⟨(validate_cases sC2).1 (by decide) (by decide) (by decide),
   (validate_cases _).2.1 (by decide),
   (validate_cases _).2.2 (by decide) (by decide) (by decide)⟩

/-- One-step unfolding of `Logs.push` with the `let` zeta-reduced. -/
lemma push_def (ls : Logs) (d : Log) :
    ls.push d =
      if (ls.logs ++ [d]).length > MAX_LOG_COUNT then
        Logs.mk (ls.logs ++ [d]).tail
      else Logs.mk (ls.logs ++ [d]) := rfl

/-- One-step unfolding of `Logs.pushAll`. -/
lemma pushAll_cons (ls : Logs) (d : Log) (es : List Log) :
    ls.pushAll (d :: es) = (ls.push d).pushAll es := rfl

/-- Pushing any batch of entries preserves the length cap. -/
lemma pushAll_length_le (es : List Log) :
    ∀ ls : Logs, ls.logs.length ≤ MAX_LOG_COUNT →
      (ls.pushAll es).logs.length ≤ MAX_LOG_COUNT := by
  induction es with
  | nil => intro ls h; exact h
  | cons d es2 ih =>
    intro ls h
    rw [pushAll_cons]
    apply ih
    rw [push_def]
    by_cases hc : (ls.logs ++ [d]).length > MAX_LOG_COUNT
    · rw [if_pos hc]
      simp only [List.length_tail, List.length_append, List.length_cons,
        List.length_nil]
      omega
    · rw [if_neg hc]
      simp only [List.length_append, List.length_cons, List.length_nil] at hc ⊢
      omega

/-- As long as the cap is not reached, `push` only appends: no entry is
evicted. -/
lemma pushAll_no_evict (es : List Log) :
    ∀ l : List Log, l.length + es.length ≤ MAX_LOG_COUNT →
      (Logs.mk l).pushAll es = Logs.mk (l ++ es) := by
  induction es with
  | nil => intro l h; simp [Logs.pushAll]
  | cons d es2 ih =>
    intro l h
    simp only [List.length_cons] at h
    rw [pushAll_cons, push_def,
      if_neg (by
        simp only [List.length_append, List.length_cons, List.length_nil]
        omega)]
    rw [ih (l ++ [d])
      (by simp only [List.length_append, List.length_cons, List.length_nil]
          omega)]
    simp

/-- C5: starting from an empty buffer, no sequence of pushes ever leaves
more than 999 entries; and pushing exactly 1000 entries leaves exactly the
last 999 of them in insertion order — only the first-pushed (oldest) entry
is evicted. -/
theorem logs_push_cap (es : List Log) :
    ((Logs.mk []).pushAll es).logs.length ≤ MAX_LOG_COUNT
    ∧ (es.length = 1000 → ((Logs.mk []).pushAll es).logs = es.drop 1) := by
  constructor
  · exact pushAll_length_le es (Logs.mk []) (by simp [MAX_LOG_COUNT])
  · intro h1000
    have hne : es ≠ [] := by
      intro h
      rw [h] at h1000
      simp at h1000
    have hsplit : es.dropLast ++ [es.getLast hne] = es :=
      List.dropLast_append_getLast hne
    have hlen : es.dropLast.length = 999 := by
      rw [List.length_dropLast, h1000]
    have h1 : (Logs.mk []).pushAll es
        = ((Logs.mk []).pushAll es.dropLast).push (es.getLast hne) := by
      conv_lhs => rw [← hsplit]
      simp [Logs.pushAll, List.foldl_append]
    have h2 : (Logs.mk []).pushAll es.dropLast = Logs.mk es.dropLast := by
      have := pushAll_no_evict es.dropLast [] (by simp [hlen, MAX_LOG_COUNT])
      simpa using this
    rw [h1, h2, push_def, if_pos (by
      simp only [List.length_append, List.length_cons, List.length_nil, hlen,
        MAX_LOG_COUNT]
      omega)]
    show (es.dropLast ++ [es.getLast hne]).tail = es.drop 1
    rw [hsplit, List.drop_one]

/-- Witness for `logs_push_cap`: pushing 1000 copies of a concrete entry
leaves exactly the last 999 of them, and at most 999 entries. -/
theorem logs_push_cap_witness :
    ((Logs.mk []).pushAll (List.replicate 1000 logW)).logs
        = (List.replicate 1000 logW).drop 1
    ∧ ((Logs.mk []).pushAll (List.replicate 1000 logW)).logs.length
        ≤ MAX_LOG_COUNT :=
  ⟨(logs_push_cap (List.replicate 1000 logW)).2 (by simp),
   (logs_push_cap (List.replicate 1000 logW)).1⟩

/-- If every candidate id in the scanned window is taken, the scan of
`get_next_free_id` reports exhaustion. -/
lemma findFreeFrom_eq_none (keys : Finset Nat) :
    ∀ (fuel start : Nat),
      (∀ k, start ≤ k → k < start + fuel → k ∈ keys) →
      findFreeFrom keys start fuel = none := by
  intro fuel
  induction fuel with
  | zero => intro start _; rfl
  | succ n ih =>
    intro start h
    have hs : start ∈ keys := h start le_rfl (by omega)
    show findFreeFrom keys start (n + 1) = none
    rw [findFreeFrom, if_pos hs]
    exact ih (start + 1) (fun k hk1 hk2 => h k (by omega) (by omega))

/-- C7: the id scan misses `u32::MAX`. On the map whose keys are exactly
`{0, …, 2^32 - 2}` — which leaves id `2^32 - 1` unused — `get_next_free_id`
reports exhaustion (`none`, the "Job ID space exhausted" panic) instead of
returning the free id, because the Rust range `u32::MIN..u32::MAX` is
half-open and never tries `u32::MAX`. On small maps the scan does return
the smallest free id: `{0,1,2} ↦ 3`, `{} ↦ 0`, `{1} ↦ 0`. -/
theorem next_free_id_skips_u32_max :
    get_next_free_id (Finset.range U32_MAX) = none
    ∧ U32_MAX ∉ Finset.range U32_MAX
    ∧ get_next_free_id {0, 1, 2} = some 3
    ∧ get_next_free_id (∅ : Finset Nat) = some 0
    ∧ get_next_free_id {1} = some 0 := by
  refine ⟨?_, by simp, by decide, by decide, by decide⟩
  show findFreeFrom (Finset.range U32_MAX) 0 U32_MAX = none
  apply findFreeFrom_eq_none
  intro k _ hk
  simp only [Finset.mem_range]
  omega

/-- Projection of `mark_running` on `next_run_start`. -/
lemma mark_running_next (j : Job) (c : Child) (T : Nat) :
    (j.mark_running c T).next_run_start =
      (match j.settings.interval with
       | some 0 => none
       | none => none
       | some interval => some (T + interval)) := rfl

/-- C4: `is_waiting_to_start` holds exactly when the job is Idle with no
process attached and `next_run_start` is absent or has passed; a recurring
job with interval 60 transitioning to Running at time `T` gets
`next_run_start = T + 60` (an absent or zero interval yields none); and a
job whose `next_run_start` lies in the future is never waiting to
start. -/
theorem waiting_and_schedule (j : Job) (now : Nat) :
    (j.is_waiting_to_start now = true ↔
      (j.status = JobStatus.Idle ∧ j.process = none ∧
        (j.next_run_start = none ∨
          ∃ t, j.next_run_start = some t ∧ t ≤ now)))
    ∧ (∀ (c : Child) (T : Nat), j.settings.interval = some 60 →
        (j.mark_running c T).next_run_start = some (T + 60))
    ∧ (∀ (c : Child) (T : Nat),
        (j.settings.interval = none ∨ j.settings.interval = some 0) →
        (j.mark_running c T).next_run_start = none)
    ∧ (∀ t, j.next_run_start = some t → now < t →
        j.is_waiting_to_start now = false) := by
  refine ⟨?_, ?_, ?_, ?_⟩
  · cases hnr : j.next_run_start with
    | none =>
      simp [Job.is_waiting_to_start, hnr, Option.isNone_iff_eq_none]
    | some t =>
      simp [Job.is_waiting_to_start, hnr, Option.isNone_iff_eq_none]
      tauto
  · intro c T h
    rw [mark_running_next, h]
  · intro c T h
    rcases h with h | h <;> rw [mark_running_next, h]
  · intro t ht hlt
    have hn : ¬ (t ≤ now) := by omega
    simp [Job.is_waiting_to_start, ht, hn]

/-- Witness for `waiting_and_schedule` on the concrete idle recurring job
`jW` (interval 60, next run at time 10): marking it running at time 100
schedules the next run at 160; at time 5 it is not yet waiting to start;
at time 20 it is. -/
theorem waiting_and_schedule_witness :
    (jW.mark_running ⟨1⟩ 100).next_run_start = some 160
    ∧ jW.is_waiting_to_start 5 = false
    ∧ jW.is_waiting_to_start 20 = true :=
  ⟨(waiting_and_schedule jW 5).2.1 ⟨1⟩ 100 rfl,
   (waiting_and_schedule jW 5).2.2.2 10 rfl (by decide),
   (waiting_and_schedule jW 20).1.mpr ⟨rfl, rfl, Or.inr ⟨10, rfl, by decide⟩⟩⟩

/-- C10: `mark_exited` and `mark_stopped_manually` set the status to Idle,
detach the process, and push exactly one log entry (`"<Exited>"` resp.
`"<Stopped Manually>"`), leaving `job_id`, `job_uid`, `settings`,
`started_at` and — decisive for rescheduling a recurring job —
`next_run_start` unchanged. -/
theorem mark_exited_stopped_manually_frame (j : Job) (now : Nat) :
    ((j.mark_exited now).job_id = j.job_id
      ∧ (j.mark_exited now).job_uid = j.job_uid
      ∧ (j.mark_exited now).settings = j.settings
      ∧ (j.mark_exited now).started_at = j.started_at
      ∧ (j.mark_exited now).next_run_start = j.next_run_start
      ∧ (j.mark_exited now).status = JobStatus.Idle
      ∧ (j.mark_exited now).process = none
      ∧ (j.mark_exited now).logs =
          j.logs.push { timestamp := now, data := "<Exited>".toList })
    ∧ ((j.mark_stopped_manually now).job_id = j.job_id
      ∧ (j.mark_stopped_manually now).job_uid = j.job_uid
      ∧ (j.mark_stopped_manually now).settings = j.settings
      ∧ (j.mark_stopped_manually now).started_at = j.started_at
      ∧ (j.mark_stopped_manually now).next_run_start = j.next_run_start
      ∧ (j.mark_stopped_manually now).status = JobStatus.Idle
      ∧ (j.mark_stopped_manually now).process = none
      ∧ (j.mark_stopped_manually now).logs =
          j.logs.push
            { timestamp := now, data := "<Stopped Manually>".toList }) :=
  ⟨⟨rfl, rfl, rfl, rfl, rfl, rfl, rfl, rfl⟩,
   ⟨rfl, rfl, rfl, rfl, rfl, rfl, rfl, rfl⟩⟩

/-- C3: when the spawn fails during `start` on the idle job
`Job.new 0 "UID0" sC2`, the error is surfaced to the caller, but the job
is left with status Starting — not reconciled to Idle: it never satisfies
`is_waiting_to_start` at any time again, and a further `mark_starting`
(hence any restart) fails with "Job not idle". -/
theorem start_spawn_failure_leaves_starting :
    ((Job.new 0 "UID0" sC2).start none 5).1 = Except.error "spawn failed"
    ∧ ((Job.new 0 "UID0" sC2).start none 5).2.status = JobStatus.Starting
    ∧ (∀ now,
        ((Job.new 0 "UID0" sC2).start none 5).2.is_waiting_to_start now
          = false)
    ∧ ((Job.new 0 "UID0" sC2).start none 5).2.mark_starting
        = Except.error "Job not idle" :=
  ⟨rfl, rfl, fun _ => rfl, rfl⟩

/-- C1: in the interleaving where the exit-responsible reader routine has
already transitioned the job to Idle (state `jC1_reader`) by the time
`stop` performs its final transition, `stop` nevertheless performs
`mark_stopped_manually`: the precondition `status = Stopping` of
`mark_stopped_manually` is violated at that point (its debug assertion is
false) and a spurious `"<Stopped Manually>"` log entry is appended after
the `"<Exited>"` one. -/
theorem stop_runs_mark_stopped_manually_on_idle :
    jC1_reader.status = JobStatus.Idle
    ∧ ¬ markStoppedManuallyAssert jC1_reader
    ∧ jC1.stop true 7 = (Except.ok (), jC1_reader.mark_stopped_manually 7)
    ∧ (jC1.stop true 7).2.logs.logs.map Log.data
        = ["<Exited>".toList, "<Stopped Manually>".toList] :=
  ⟨rfl, by unfold markStoppedManuallyAssert; decide, rfl, by decide⟩

/-- C6: `get_truncated` is not total on texts containing multi-byte
characters: on `logBad` (199 ASCII characters followed by the 2-byte
character `é`, 201 bytes in total) the slice `&data[..200]` cuts through
the final character and panics (`none`), both for the single entry and
for the derived view of a buffer containing it. -/
theorem get_truncated_panics_on_multibyte :
    logBad.get_truncated = none
    ∧ strByteLen logBad.data = 201
    ∧ (Logs.mk [logBad]).get_truncated = none := by
  refine ⟨by decide, by decide, by decide⟩

/-- C9 counterexample: `as_args` is not a pure function of the settings
and the uid alone — two invocations of the same settings (`s9`, frequency
0, where the two `f64`-derived strings are exactly `"0.000"` and `"0e0"`)
with the same uid but different wall-clock timestamps return different
argument vectors, because the `--station` stem embeds
`Utc::now()`. -/
theorem as_args_not_pure_in_settings_and_uid :
    RecorderSettings.as_args fmtFreq0 toSci0 s9 "UID0"
        "2024-01-01_00-00-00_UTC"
      ≠ RecorderSettings.as_args fmtFreq0 toSci0 s9 "UID0"
        "2024-01-01_00-00-01_UTC" := by
  decide

/-- C9 (amended): the argument vector is a pure function of the settings,
the uid, and the formatted invocation timestamp, and its dependence on the
clock is confined to the `--station` element: it always decomposes as the
fixed head, then `--station=<stem>` with the stem from `get_filename`,
then the recording-type/duration tail, where head and tail depend only on
the settings (and the `f64` formatter). -/
theorem as_args_decomposition (fmtFreq toSci : Nat → String)
    (s : RecorderSettings) (uid utcNow : String) :
    RecorderSettings.as_args fmtFreq toSci s uid utcNow =
      argsHead fmtFreq s ++
        ("--station=" ++ RecorderSettings.get_filename toSci s uid utcNow)
          :: argsTail s := by
  obtain ⟨rt, f, z, dur, itv⟩ := s
  cases rt <;> by_cases hd : dur = 0 <;>
    simp [RecorderSettings.as_args, argsHead, argsTail, hd]

end KiwiSdr
